import Mathlib

/-!
Shallow embedding of the anime channel bot (src/bot.py).

The program is a Telegram bot that answers every inbound message with a
stock photo fetched from the Pexels search API plus a promotional caption
and a fixed inline keyboard.  Randomness (search-term, page, photo and
fallback selection via the random module) is modelled by explicit seed
arguments; each draw from a list of length n reads the seed modulo n.
Outbound HTTP and Telegram calls are modelled by an explicit environment
value that decides which calls succeed, and by a trace of attempted calls.
Machine strings and integers correspond to Python strings and ints.
-/

/-- A single quote character, used inside some caption literals. -/
def squote : String := (Char.ofNat 39).toString

/-- The image descriptor the resolver returns (bot.py lines 123-127 and the
FALLBACK_IMAGES entries): a media url, the photographer name and alt text. -/
structure ImageData where
  url : String
  photographer : String
  alt : String
deriving DecidableEq

/-- One photo record of a parsed Pexels response body.  A field is none when
the corresponding key is missing from the JSON record, in which case the
Python subscript raises KeyError; alt is read with a default (line 126). -/
structure Photo where
  srcLarge : Option String
  photographer : Option String
  alt : Option String
deriving DecidableEq

/-- The body of an HTTP response: either response.json() fails to produce a
usable photos list (malformed), or it yields a list of photo records. -/
inductive RemoteBody where
  | malformed : RemoteBody
  | photos : List Photo → RemoteBody
deriving DecidableEq

/-- Behavior of the remote image-search collaborator for one request:
either requests.get raises (transport error or timeout), or it returns a
response with a status code and a body. -/
inductive RemoteBehavior where
  | transport : RemoteBehavior
  | http : Nat → RemoteBody → RemoteBehavior
deriving DecidableEq

/-- Seeds for the four random draws inside fetch_anime_image:
search term (line 93), page (line 94), photo (line 121), fallback. -/
structure Seeds where
  term : Nat
  page : Nat
  photo : Nat
  fb : Nat
deriving DecidableEq

/-- random.choice over a list, modelled as indexing by seed modulo length
(the default is never reached on the nonempty lists the program uses). -/
def randChoice {α : Type} (xs : List α) (d : α) (seed : Nat) : α :=
  xs.getD (seed % xs.length) d

/-- random.randint a b: an integer drawn from the closed range [a, b],
modelled as a plus the seed modulo the range size. -/
def randint (a b seed : Nat) : Nat :=
  a + seed % (b + 1 - a)

/-- ANIME_SEARCH_TERMS (bot.py lines 39-45). -/
def ANIME_SEARCH_TERMS : List String :=
  ["anime girl", "manga art", "japanese art", "anime character",
   "kawaii", "otaku", "anime style", "manga girl", "japanese illustration",
   "anime artwork", "cosplay", "japanese culture", "anime portrait",
   "manga style", "japanese animation", "anime aesthetic", "waifu",
   "anime wallpaper", "manga character", "japanese anime"]

/-- FALLBACK_IMAGES (bot.py lines 48-69): the static 4-element fallback set. -/
def FALLBACK_IMAGES : List ImageData :=
  [{ url := "https://images.pexels.com/photos/1591447/pexels-photo-1591447.jpeg?auto=compress&cs=tinysrgb&w=1260&h=750&dpr=1",
     photographer := "Pexels",
     alt := "Beautiful anime-style artwork" },
   { url := "https://images.pexels.com/photos/1591373/pexels-photo-1591373.jpeg?auto=compress&cs=tinysrgb&w=1260&h=750&dpr=1",
     photographer := "Pexels",
     alt := "Japanese art style illustration" },
   { url := "https://images.pexels.com/photos/1591056/pexels-photo-1591056.jpeg?auto=compress&cs=tinysrgb&w=1260&h=750&dpr=1",
     photographer := "Pexels",
     alt := "Manga-style character art" },
   { url := "https://images.pexels.com/photos/2693212/pexels-photo-2693212.jpeg?auto=compress&cs=tinysrgb&w=1260&h=750&dpr=1",
     photographer := "Pexels",
     alt := "Anime aesthetic wallpaper" }]

/-- get_random_search_term (bot.py lines 82-84). -/
def get_random_search_term (seed : Nat) : String :=
  randChoice ANIME_SEARCH_TERMS "" seed

/-- get_fallback_image (bot.py lines 86-88). -/
def get_fallback_image (seed : Nat) : ImageData :=
  randChoice FALLBACK_IMAGES { url := "", photographer := "", alt := "" } seed

/-- The single outbound search request of fetch_anime_image
(bot.py lines 102-114): query parameters and the timeout. -/
structure SearchRequest where
  query : String
  per_page : Nat
  page : Nat
  orientation : String
  timeout : Nat
deriving DecidableEq

/-- The photo record used when a chosen record has every key missing. -/
def defaultPhoto : Photo := { srcLarge := none, photographer := none, alt := none }

/-- fetch_anime_image (bot.py lines 90-137).  Returns the list of outbound
search requests issued (always exactly the one built at lines 102-114; the
code has no retry loop) together with the resulting descriptor.  Every
failure path (transport error at requests.get, a non-200 status, a body
that fails to parse, an empty photo list, or a KeyError on the chosen photo
record) is caught and degrades to get_fallback_image, mirroring the
try/except of lines 92-137. -/
def fetch_anime_image (remote : RemoteBehavior) (s : Seeds) :
    List SearchRequest × ImageData :=
  let search_term := get_random_search_term s.term
  let random_page := randint 1 10 s.page
  let req : SearchRequest :=
    { query := search_term, per_page := 20, page := random_page,
      orientation := "all", timeout := 10 }
  let result : ImageData :=
    match remote with
    | .transport => get_fallback_image s.fb
    | .http status body =>
      if status = 200 then
        match body with
        | .malformed => get_fallback_image s.fb
        | .photos ps =>
          if ps.isEmpty then get_fallback_image s.fb
          else
            let random_photo := randChoice ps defaultPhoto s.photo
            match random_photo.srcLarge, random_photo.photographer with
            | some u, some ph =>
              { url := u, photographer := ph,
                alt := random_photo.alt.getD "Anime-style image" }
            | some _, none => get_fallback_image s.fb
            | none, _ => get_fallback_image s.fb
      else get_fallback_image s.fb
  ([req], result)

/-- The photo list a remote behavior would hand to the resolver on a
parsed response; empty in every other case. -/
def remotePhotos : RemoteBehavior → List Photo
  | .http _ (.photos ps) => ps
  | _ => []

/-- Whether fetch_anime_image takes one of its failure branches (and hence
returns a fallback entry) for the given remote behavior and seeds. -/
def resolution_failed (remote : RemoteBehavior) (s : Seeds) : Bool :=
  match remote with
  | .transport => true
  | .http status body =>
    if status = 200 then
      match body with
      | .malformed => true
      | .photos ps =>
        if ps.isEmpty then true
        else
          let p := randChoice ps defaultPhoto s.photo
          p.srcLarge.isNone || p.photographer.isNone
    else true

theorem randChoice_mem {α : Type} (xs : List α) (d : α) (seed : Nat)
    (h : xs ≠ []) : randChoice xs d seed ∈ xs := by
  unfold randChoice
  have hl : 0 < xs.length := List.length_pos.mpr h
  have hm : seed % xs.length < xs.length := Nat.mod_lt _ hl
  rw [List.getD_eq_getElem?_getD, List.getElem?_eq_getElem hm]
  exact List.getElem_mem hm

theorem get_fallback_image_mem (seed : Nat) :
    get_fallback_image seed ∈ FALLBACK_IMAGES :=
  randChoice_mem _ _ _ (by decide)

theorem fallback_url_ne (seed : Nat) : (get_fallback_image seed).url ≠ "" := by
  have h := get_fallback_image_mem seed
  generalize get_fallback_image seed = x at *
  simp only [FALLBACK_IMAGES, List.mem_cons, List.not_mem_nil, or_false] at h
  rcases h with rfl | rfl | rfl | rfl <;> decide

/-- Configuration read at startup (bot.py lines 22-27). -/
structure Config where
  botToken : String
  pexelsKey : String
  mainChannel : String
  backupChannel : String
  mainChannelName : String
  backupChannelName : String
deriving DecidableEq

/-- Python truthiness test `not value` on the result of os.getenv: true when
the variable is unset or holds the empty string (bot.py lines 30, 34). -/
def envFalsy : Option String → Bool
  | none => true
  | some s => s == ""

/-- The startup configuration sequence (bot.py lines 22-36), with exit(1)
modelled as an error carrying the exit code.  The token and key are read
without defaults and checked for truthiness; the two channel handles and
the two display names are read with literal defaults and never checked. -/
def load_config (env : String → Option String) : Except Nat Config :=
  let botToken := env "TELEGRAM_BOT_TOKEN"
  let pexelsKey := env "PEXELS_API_KEY"
  let mainChannel := (env "MAIN_CHANNEL_USERNAME").getD "@your_main_channel"
  let backupChannel := (env "BACKUP_CHANNEL_USERNAME").getD "@your_backup_channel"
  let mainChannelName := (env "MAIN_CHANNEL_NAME").getD "Main Anime Channel"
  let backupChannelName := (env "BACKUP_CHANNEL_NAME").getD "Backup Anime Channel"
  if envFalsy botToken then .error 1
  else if envFalsy pexelsKey then .error 1
  else .ok { botToken := botToken.getD "", pexelsKey := pexelsKey.getD "",
             mainChannel := mainChannel, backupChannel := backupChannel,
             mainChannelName := mainChannelName,
             backupChannelName := backupChannelName }

/-- Whether startup aborted (exit before serving any event). -/
def isFatal : Except Nat Config → Bool
  | .error _ => true
  | .ok _ => false

/-- An inline keyboard button: an external-link button carrying a label and
a url, or an action button carrying a label and callback data. -/
inductive Button where
  | urlButton : String → String → Button
  | callbackButton : String → String → Button
deriving DecidableEq

/-- The channel url built at bot.py lines 143-144: the replace call removes
every at sign from the handle. -/
def channel_url (handle : String) : String :=
  "https://t.me/" ++ String.mk (handle.data.filter (fun c => c ≠ Char.ofNat 64))

/-- create_channel_keyboard (bot.py lines 139-151). -/
def create_channel_keyboard (cfg : Config) : List (List Button) :=
  [[Button.urlButton ("🌸 " ++ cfg.mainChannelName) (channel_url cfg.mainChannel),
    Button.urlButton ("💫 " ++ cfg.backupChannelName) (channel_url cfg.backupChannel)],
   [Button.callbackButton "🎲 Get Another Image" "get_random",
    Button.callbackButton "❓ Help" "help"]]

/-- Python `first_name or d`: the default replaces a missing or empty
first name (bot.py lines 157, 218, 257, 266, 277). -/
def nameOrDefault (firstName : Option String) (d : String) : String :=
  match firstName with
  | none => d
  | some s => if s = "" then d else s

/-- The fixed call-to-action line of every caption (bot.py lines 180, 212). -/
def call_to_action : String := "💫 Join our channels for more anime content! 👇"

/-- The alt, attribution and call-to-action tail shared by every caption
(bot.py lines 178-180 and 212). -/
def caption_tail (img : ImageData) : String :=
  "🎨 " ++ img.alt ++ "\n" ++ "📸 Photo by: " ++ img.photographer ++ "\n\n" ++
    call_to_action

/-- The caption built on the success path (bot.py lines 172-180): the
supplied welcome text when present, otherwise the personalized salutation,
followed by the shared tail. -/
def compose_caption (welcome_text : Option String) (user_name : String)
    (img : ImageData) : String :=
  match welcome_text with
  | some w => w ++ "\n\n" ++ caption_tail img
  | none =>
    "🌸 Here" ++ squote ++ "s your anime image, " ++ user_name ++ "! 🌸\n\n" ++
      caption_tail img

/-- The caption of the degraded fallback reply (bot.py line 212): same tail,
salutation without the user name. -/
def fallback_caption (img : ImageData) : String :=
  "🌸 Here" ++ squote ++ "s your anime image! 🌸\n\n" ++ caption_tail img

/-- The placeholder text sent before fetching (bot.py line 165). -/
def fetching_text : String := "🎨 Getting a fresh anime image for you... ✨"

/-- The condensed help text of the help button (bot.py lines 284-294),
with the two channel handles interpolated. -/
def quick_help_text (cfg : Config) : String :=
  "\n🤖 **Quick Help**\n\n🌸 Send me any message or photo for anime images!\n\n💫 **Our Channels:**\n• Main: " ++
    cfg.mainChannel ++ "\n• Backup: " ++ cfg.backupChannel ++
    "\n\n🎨 Enjoy unlimited anime content!\n        "

/-- The User Directory user_db (bot.py line 72): a conversation id keyed
map to the last stored display name. -/
def DB : Type := Int → Option String

/-- store_user (bot.py lines 74-76). -/
def store_user (db : DB) (chat_id : Int) (user_name : String) : DB :=
  fun c => if c = chat_id then some user_name else db c

/-- get_user_name (bot.py lines 78-80): dict.get with default "User". -/
def get_user_name (db : DB) (chat_id : Int) : String :=
  (db chat_id).getD "User"

/-- One attempted outbound call of the event handlers, in order of attempt:
the Pexels search request, Telegram send_message, delete_message,
send_photo, edit_message_caption and the callback acknowledgement. -/
inductive BotAction where
  | search : SearchRequest → BotAction
  | sendMessage : Int → String → BotAction
  | deleteMessage : Int → Nat → BotAction
  | sendPhoto : Int → String → String → List (List Button) → BotAction
  | editCaption : String → List (List Button) → BotAction
  | answerCallback : BotAction
deriving DecidableEq

/-- The environment of one event handling run: the remote collaborator
behavior, the seeds of the random draws, and which Telegram calls succeed.
fbSeed2 drives the independent fallback draw of the except block
(bot.py line 208).  The failure of the delete at line 203 is swallowed by
the bare except and has no observable effect, so it carries no flag. -/
structure Env where
  remote : RemoteBehavior
  seeds : Seeds
  fbSeed2 : Nat
  sendMessageOk : Bool
  placeholderMsgId : Nat
  deleteOk : Bool
  sendPhotoOk : Bool
  fallbackSendOk : Bool
  editOk : Bool

/-- The observable outcome of one handler run: the directory afterwards,
the trace of attempted outbound calls, and whether an exception propagated
out of the handler. -/
structure SeqResult where
  db : DB
  trace : List BotAction
  errored : Bool

/-- The object passed as the update argument of send_anime_with_channels:
either a genuine Update (message, command or photo events), which exposes
the chat id and the sender first name, or the CallbackQuery object that
handle_callback_query passes at bot.py line 281, which exposes neither. -/
inductive UpdObj where
  | message : Int → Option String → UpdObj
  | query : Option String → UpdObj

/-- The except block of send_anime_with_channels (bot.py lines 198-214),
reached with chat_id bound: attempt to delete the placeholder when the
status_message binding exists (any failure, including the NameError when it
does not, is swallowed by the bare except of lines 201-205), then send the
degraded fallback reply; if that send itself raises, the exception
propagates.  Returns the trace suffix and the propagation flag. -/
def except_path (cfg : Config) (env : Env) (chatId : Int)
    (statusBound : Bool) (t : List BotAction) : List BotAction × Bool :=
  let t1 := if statusBound then t ++ [BotAction.deleteMessage chatId env.placeholderMsgId]
            else t
  let fb := get_fallback_image env.fbSeed2
  let t2 := t1 ++ [BotAction.sendPhoto chatId fb.url (fallback_caption fb)
                     (create_channel_keyboard cfg)]
  (t2, ! env.fallbackSendOk)

/-- The try block body of send_anime_with_channels for a genuine message
update (bot.py lines 162-196) plus its except block: placeholder send,
fetch, caption, placeholder delete, photo send, with every failure routed
through except_path.  An empty url on the fetched descriptor fails the
truthiness test of line 171 and raises (line 196). -/
def message_flow (cfg : Config) (env : Env) (chatId : Int)
    (user_name : String) (welcome_text : Option String) :
    List BotAction × Bool :=
  let t1 := [BotAction.sendMessage chatId fetching_text]
  if env.sendMessageOk then
    let fr := fetch_anime_image env.remote env.seeds
    let t2 := t1 ++ fr.1.map BotAction.search
    let image_data := fr.2
    if image_data.url = "" then except_path cfg env chatId true t2
    else
      let caption := compose_caption welcome_text user_name image_data
      let t3 := t2 ++ [BotAction.deleteMessage chatId env.placeholderMsgId]
      if env.deleteOk then
        let t4 := t3 ++ [BotAction.sendPhoto chatId image_data.url caption
                           (create_channel_keyboard cfg)]
        if env.sendPhotoOk then (t4, false)
        else except_path cfg env chatId true t4
      else except_path cfg env chatId true t3
  else except_path cfg env chatId false t1

/-- send_anime_with_channels (bot.py lines 153-214).  For a genuine Update
the directory entry is written first (line 160) and the message flow runs.
When handle_callback_query passes its CallbackQuery instead (line 281),
the attribute access update.effective_chat at line 156 raises immediately
(a CallbackQuery has no such attribute), so neither chat_id nor
status_message is ever bound; in the except block the delete call raises a
NameError on its arguments (swallowed by the bare except) and the fallback
send_photo raises a NameError on chat_id before any call is attempted, so
the exception propagates with an empty trace and an unchanged directory. -/
def send_anime_with_channels (cfg : Config) (env : Env) (db : DB)
    (upd : UpdObj) (welcome_text : Option String) : SeqResult :=
  match upd with
  | .query _ => { db := db, trace := [], errored := true }
  | .message chatId firstName =>
    let user_name := nameOrDefault firstName "there"
    let fl := message_flow cfg env chatId user_name welcome_text
    { db := store_user db chatId user_name, trace := fl.1, errored := fl.2 }

/-- A callback (button press) event: its callback data and the first name
of the pressing user. -/
structure CallbackEvent where
  data : String
  fromFirstName : Option String

/-- handle_callback_query (bot.py lines 272-299): acknowledge the press,
then dispatch on the callback data; get_random forwards the CallbackQuery
object itself to send_anime_with_channels (line 281), help edits the
originating message caption in place with the condensed help text and the
same keyboard (lines 296-299), any other data does nothing further. -/
def handle_callback_query (cfg : Config) (env : Env) (db : DB)
    (ev : CallbackEvent) : SeqResult :=
  let t0 := [BotAction.answerCallback]
  if ev.data = "get_random" then
    let r := send_anime_with_channels cfg env db (.query ev.fromFirstName) none
    { db := r.db, trace := t0 ++ r.trace, errored := r.errored }
  else if ev.data = "help" then
    { db := db,
      trace := t0 ++ [BotAction.editCaption (quick_help_text cfg)
                        (create_channel_keyboard cfg)],
      errored := ! env.editOk }
  else
    { db := db, trace := t0, errored := false }

/-- handle_any_message and handle_photo (bot.py lines 255-270): both run
the full sequence with no welcome text. -/
def handle_any_message (cfg : Config) (env : Env) (db : DB)
    (chatId : Int) (firstName : Option String) : SeqResult :=
  send_anime_with_channels cfg env db (.message chatId firstName) none

/-- The welcome text of the start command (bot.py line 220). -/
def welcome_text_for (user_name : String) : String :=
  "🌸 Welcome " ++ user_name ++
    "! 🌸\n\n✨ I" ++ squote ++ "m your personal anime bot! Every time you send me a message or photo, I" ++
    squote ++ "ll respond with a beautiful anime image and show you our amazing channels!"

/-- start_command (bot.py lines 216-224). -/
def start_command (cfg : Config) (env : Env) (db : DB)
    (chatId : Int) (firstName : Option String) : SeqResult :=
  send_anime_with_channels cfg env db (.message chatId firstName)
    (some (welcome_text_for (nameOrDefault firstName "there")))

/-- A concrete configuration used by the concrete evaluation theorems. -/
def cfg0 : Config :=
  { botToken := "t", pexelsKey := "k", mainChannel := "@main",
    backupChannel := "@backup", mainChannelName := "Main Anime Channel",
    backupChannelName := "Backup Anime Channel" }

/-- A concrete all-succeeding environment with a transport-failing remote. -/
def env0 : Env :=
  { remote := .transport, seeds := { term := 0, page := 0, photo := 0, fb := 0 },
    fbSeed2 := 0, sendMessageOk := true, placeholderMsgId := 1,
    deleteOk := true, sendPhotoOk := true, fallbackSendOk := true,
    editOk := true }

/-- The empty directory. -/
def db0 : DB := fun _ => none

/-- A concrete process environment carrying only the token and the key. -/
def env_token_key_only : String → Option String := fun k =>
  if k = "TELEGRAM_BOT_TOKEN" then some "token123"
  else if k = "PEXELS_API_KEY" then some "key123"
  else none

/-- Seeds used by the concrete evaluation theorems. -/
def seeds0 : Seeds := { term := 0, page := 0, photo := 0, fb := 0 }

/-- A remote behavior answering 200 with one photo whose large rendition
url is the empty string. -/
def remote_empty_url : RemoteBehavior :=
  .http 200 (.photos [{ srcLarge := some "", photographer := some "Pexels",
                        alt := none }])

/-- Whether a call sends a new message or photo to the conversation. -/
def isSendCall : BotAction → Bool
  | BotAction.sendMessage _ _ => true
  | BotAction.sendPhoto _ _ _ _ => true
  | _ => false

/-- Whether a call is an outbound image-search request. -/
def isSearchCall : BotAction → Bool
  | BotAction.search _ => true
  | _ => false

/-- Claim C1, counterexample: when the remote collaborator answers 200 with
one photo record whose large rendition url is the empty string, the
resolver returns a descriptor whose url field is empty, and that descriptor
is not a member of the static fallback set, refuting the claim that the
returned url is non-empty for every remote behavior. -/
theorem fetch_empty_url_cx :
    (fetch_anime_image remote_empty_url seeds0).2.url = "" ∧
    (fetch_anime_image remote_empty_url seeds0).2 ∉ FALLBACK_IMAGES := by
  constructor
  · rfl
  · decide

/-- Claim C1, amended: the resolver always returns a descriptor (it is a
total function: every error path of the source is caught and degrades to a
fallback entry), and on every failure branch the result is one of the 4
static fallback entries; the url field is non-empty provided every photo
record the remote supplies carries a non-empty large rendition url. -/
theorem fetch_always_returns_descriptor (remote : RemoteBehavior) (s : Seeds)
    (h : ∀ p ∈ remotePhotos remote, ∀ u, p.srcLarge = some u → u ≠ "") :
    (fetch_anime_image remote s).2.url ≠ "" ∧
    (resolution_failed remote s = true →
      (fetch_anime_image remote s).2 ∈ FALLBACK_IMAGES) := by
  cases remote with
  | transport => exact ⟨fallback_url_ne _, fun _ => get_fallback_image_mem _⟩
  | http status body =>
    by_cases hst : status = 200
    · subst hst
      cases body with
      | malformed =>
        simp only [fetch_anime_image, resolution_failed, if_pos rfl]
        exact ⟨fallback_url_ne _, fun _ => get_fallback_image_mem _⟩
      | photos ps =>
        by_cases hps : ps.isEmpty = true
        · simp only [fetch_anime_image, resolution_failed, if_pos rfl, hps,
            if_true]
          exact ⟨fallback_url_ne _, fun _ => get_fallback_image_mem _⟩
        · have hne : ps ≠ [] := by
            intro hcon; rw [hcon] at hps; exact hps rfl
          have hmem : randChoice ps defaultPhoto s.photo ∈ ps :=
            randChoice_mem _ _ _ hne
          simp only [remotePhotos] at h
          simp only [fetch_anime_image, resolution_failed, if_pos rfl, hps,
            if_false, Bool.false_eq_true]
          cases hsrc : (randChoice ps defaultPhoto s.photo).srcLarge with
          | none =>
            simp only [hsrc]
            exact ⟨fallback_url_ne _, fun _ => get_fallback_image_mem _⟩
          | some u =>
            cases hph : (randChoice ps defaultPhoto s.photo).photographer with
            | none =>
              simp only [hsrc, hph]
              exact ⟨fallback_url_ne _, fun _ => get_fallback_image_mem _⟩
            | some ph =>
              simp only [hsrc, hph]
              refine ⟨h _ hmem u hsrc, ?_⟩
              intro hf
              simp [hsrc, hph] at hf
    · simp only [fetch_anime_image, resolution_failed, if_neg hst]
      exact ⟨fallback_url_ne _, fun _ => get_fallback_image_mem _⟩

/-- Claim C1, witness: on a transport error the resolver returns a member
of the static fallback set. -/
theorem fetch_always_returns_descriptor_w :
    (fetch_anime_image RemoteBehavior.transport seeds0).2 ∈ FALLBACK_IMAGES :=
  (fetch_always_returns_descriptor RemoteBehavior.transport seeds0
    (by intro p hp; simp [remotePhotos] at hp)).2 rfl

/-- Claim C2: evaluation of the get_random button press at a concrete
input.  handle_callback_query forwards its CallbackQuery object (which has
no effective_chat or effective_user attribute) to send_anime_with_channels,
so the handler attempts no outbound call beyond the press acknowledgement,
records nothing in the User Directory, and lets the exception propagate:
the full interaction sequence of the claim never runs. -/
theorem get_random_button_crashes :
    (handle_callback_query cfg0 env0 db0
      { data := "get_random", fromFirstName := some "Aiko" }).trace =
        [BotAction.answerCallback] ∧
    (handle_callback_query cfg0 env0 db0
      { data := "get_random", fromFirstName := some "Aiko" }).errored = true ∧
    (handle_callback_query cfg0 env0 db0
      { data := "get_random", fromFirstName := some "Aiko" }).db 123 = none :=
  ⟨rfl, rfl, rfl⟩

/-- Claim C3: evaluation of the error path at the concrete input the spec
itself flags as problematic.  When send_anime_with_channels receives the
CallbackQuery object, the initial attribute access raises, the conversation
id never binds, and the except block then raises a NameError of its own
before any placeholder removal or degraded reply can be attempted: the
trace is empty and the exception propagates out of the handler. -/
theorem query_error_path_propagates :
    (send_anime_with_channels cfg0 env0 db0 (UpdObj.query (some "Aiko"))
      none).trace = [] ∧
    (send_anime_with_channels cfg0 env0 db0 (UpdObj.query (some "Aiko"))
      none).errored = true :=
  ⟨rfl, rfl⟩

/-- Claim C4: the composed caption is, verbatim and in order, the supplied
greeting when one is given (otherwise the personalized salutation carrying
the requester name), then the image alt text, then the attribution line
naming the photographer, then the fixed call-to-action line; and the name
fed to the salutation defaults to "there" when the first name is missing
or empty. -/
theorem caption_structure (w user_name : String) (img : ImageData) :
    compose_caption (some w) user_name img =
      w ++ "\n\n" ++ ("🎨 " ++ img.alt ++ "\n" ++ "📸 Photo by: " ++
        img.photographer ++ "\n\n" ++ call_to_action) ∧
    compose_caption none user_name img =
      "🌸 Here" ++ squote ++ "s your anime image, " ++ user_name ++
        "! 🌸\n\n" ++ ("🎨 " ++ img.alt ++ "\n" ++ "📸 Photo by: " ++
        img.photographer ++ "\n\n" ++ call_to_action) ∧
    nameOrDefault none "there" = "there" ∧
    nameOrDefault (some "") "there" = "there" :=
  ⟨rfl, rfl, rfl, rfl⟩

/-- Claim C5: for every configuration the keyboard has exactly 2 rows; row
1 is exactly 2 external-link buttons labeled with the two configured
display names, and row 2 is exactly 2 action buttons whose callback data
are get_random and help. -/
theorem keyboard_layout_shape (cfg : Config) :
    (create_channel_keyboard cfg).length = 2 ∧
    (create_channel_keyboard cfg).getD 0 [] =
      [Button.urlButton ("🌸 " ++ cfg.mainChannelName)
         (channel_url cfg.mainChannel),
       Button.urlButton ("💫 " ++ cfg.backupChannelName)
         (channel_url cfg.backupChannel)] ∧
    (create_channel_keyboard cfg).getD 1 [] =
      [Button.callbackButton "🎲 Get Another Image" "get_random",
       Button.callbackButton "❓ Help" "help"] :=
  ⟨rfl, rfl, rfl⟩

/-- Claim C6, counterexample: an interaction presenting the empty display
name is recorded as "there" (the Python or-default at line 157), so the
directory lookup afterwards does not return the presented name. -/
theorem empty_name_stored_as_there_cx :
    get_user_name (send_anime_with_channels cfg0 env0 db0
      (UpdObj.message 7 (some "")) none).db 7 = "there" ∧
    ("there" : String) ≠ "" := by
  refine ⟨rfl, by decide⟩

/-- Claim C6, amended: for every conversation id C and non-empty display
name N, after an interaction from C with name N the directory lookup for C
returns N; a later interaction from C with another non-empty name N2
overwrites the entry, and every other conversation id is unchanged. -/
theorem user_directory_lww (cfg : Config) (env env2 : Env) (db : DB)
    (C : Int) (N N2 : String) (w w2 : Option String)
    (hN : N ≠ "") (hN2 : N2 ≠ "") :
    get_user_name (send_anime_with_channels cfg env db
      (UpdObj.message C (some N)) w).db C = N ∧
    get_user_name (send_anime_with_channels cfg env2
      (send_anime_with_channels cfg env db (UpdObj.message C (some N)) w).db
      (UpdObj.message C (some N2)) w2).db C = N2 ∧
    (∀ C2, C2 ≠ C →
      (send_anime_with_channels cfg env db
        (UpdObj.message C (some N)) w).db C2 = db C2) := by
  have h1 : nameOrDefault (some N) "there" = N := by simp [nameOrDefault, hN]
  have h2 : nameOrDefault (some N2) "there" = N2 := by simp [nameOrDefault, hN2]
  refine ⟨?_, ?_, ?_⟩
  · simp [send_anime_with_channels, h1, get_user_name, store_user]
  · simp [send_anime_with_channels, h1, h2, get_user_name, store_user]
  · intro C2 hC2
    simp [send_anime_with_channels, h1, store_user, hC2]

/-- Claim C6, witness: after an interaction from conversation 3 presenting
the name Aiko, the directory lookup for 3 returns Aiko. -/
theorem user_directory_lww_w :
    get_user_name (send_anime_with_channels cfg0 env0 db0
      (UpdObj.message 3 (some "Aiko")) none).db 3 = "Aiko" :=
  (user_directory_lww cfg0 env0 env0 db0 3 "Aiko" "Mei" none none
    (by decide) (by decide)).1

/-- Claim C7: every resolution issues exactly one outbound search request,
whose page size is 20, whose timeout is 10 and whose page lies in 1..10;
the page sampler attains every page of 1..10; and a transport error, a
non-success status and an empty result list each yield a member of the
static fallback set.  The single-element request list mirrors the single
requests.get call of the source, which has no retry loop. -/
theorem single_search_request_shape (remote : RemoteBehavior) (s : Seeds) :
    (fetch_anime_image remote s).1.length = 1 ∧
    (∀ r ∈ (fetch_anime_image remote s).1,
      r.per_page = 20 ∧ r.timeout = 10 ∧ 1 ≤ r.page ∧ r.page ≤ 10) ∧
    (∀ p, 1 ≤ p → p ≤ 10 → ∃ seed, randint 1 10 seed = p) ∧
    (remote = RemoteBehavior.transport →
      (fetch_anime_image remote s).2 ∈ FALLBACK_IMAGES) ∧
    (∀ status body, remote = RemoteBehavior.http status body →
      status ≠ 200 → (fetch_anime_image remote s).2 ∈ FALLBACK_IMAGES) ∧
    (∀ status, remote = RemoteBehavior.http status (RemoteBody.photos []) →
      (fetch_anime_image remote s).2 ∈ FALLBACK_IMAGES) := by
  refine ⟨rfl, ?_, ?_, ?_, ?_, ?_⟩
  · intro r hr
    have hmod : s.page % 10 < 10 := Nat.mod_lt _ (by decide)
    simp only [fetch_anime_image, List.mem_singleton] at hr
    subst hr
    refine ⟨rfl, rfl, ?_, ?_⟩
    · simp [randint]
    · simp only [randint]
      omega
  · intro p h1 h10
    refine ⟨p - 1, ?_⟩
    have : (p - 1) % 10 = p - 1 := Nat.mod_eq_of_lt (by omega)
    simp only [randint, this]
    omega
  · intro h; subst h; exact get_fallback_image_mem _
  · intro status body h hne; subst h
    simp only [fetch_anime_image, if_neg hne]
    exact get_fallback_image_mem _
  · intro status h; subst h
    by_cases hst : status = 200
    · subst hst
      simp only [fetch_anime_image, if_pos rfl, List.isEmpty_nil, if_true]
      exact get_fallback_image_mem _
    · simp only [fetch_anime_image, if_neg hst]
      exact get_fallback_image_mem _

/-- Claim C7, witness: the request list always has exactly one element. -/
theorem single_search_request_shape_w :
    (fetch_anime_image RemoteBehavior.transport seeds0).1.length = 1 :=
  (single_search_request_shape RemoteBehavior.transport seeds0).1

/-- Claim C8: for every button press carrying callback data help, the
handler acknowledges the press and performs exactly one in-place caption
edit carrying the condensed help text and the same two-row keyboard; the
trace contains no new message, no new photo and no search request, and the
directory is untouched. -/
theorem help_button_edits_in_place (cfg : Config) (env : Env) (db : DB)
    (ev : CallbackEvent) (h : ev.data = "help") :
    (handle_callback_query cfg env db ev).trace =
      [BotAction.answerCallback,
       BotAction.editCaption (quick_help_text cfg)
         (create_channel_keyboard cfg)] ∧
    ((handle_callback_query cfg env db ev).trace.countP isSendCall = 0) ∧
    ((handle_callback_query cfg env db ev).trace.countP isSearchCall = 0) ∧
    (∀ c, (handle_callback_query cfg env db ev).db c = db c) := by
  obtain ⟨d, f⟩ := ev
  simp only at h
  subst h
  refine ⟨rfl, ?_, ?_, fun c => rfl⟩
  · rfl
  · rfl

/-- Claim C8, witness: the trace of a concrete help press is exactly the
acknowledgement followed by the in-place edit. -/
theorem help_button_edits_in_place_w :
    (handle_callback_query cfg0 env0 db0
      { data := "help", fromFirstName := some "Aiko" }).trace =
      [BotAction.answerCallback,
       BotAction.editCaption (quick_help_text cfg0)
         (create_channel_keyboard cfg0)] :=
  (help_button_edits_in_place cfg0 env0 db0
    { data := "help", fromFirstName := some "Aiko" } rfl).1

/-- Claim C9, counterexample: with the token and the key present but both
channel handles absent from the environment, startup is not fatal and the
handles silently take their literal placeholder defaults, refuting the
claim that the two channel handles are required. -/
theorem missing_handles_not_fatal_cx :
    load_config env_token_key_only =
      Except.ok { botToken := "token123", pexelsKey := "key123",
                  mainChannel := "@your_main_channel",
                  backupChannel := "@your_backup_channel",
                  mainChannelName := "Main Anime Channel",
                  backupChannelName := "Backup Anime Channel" } ∧
    isFatal (load_config env_token_key_only) = false :=
  ⟨rfl, rfl⟩

/-- Claim C9, amended: startup is fatal exactly when the bot token or the
image-search key is missing or empty; when startup succeeds, the two
channel handles and the two display names are read from the environment,
each falling back to its generic literal placeholder when unset. -/
theorem startup_requirements (env : String → Option String) :
    (isFatal (load_config env) = true ↔
      (envFalsy (env "TELEGRAM_BOT_TOKEN") = true ∨
       envFalsy (env "PEXELS_API_KEY") = true)) ∧
    (∀ cfg, load_config env = Except.ok cfg →
      cfg.mainChannel = (env "MAIN_CHANNEL_USERNAME").getD "@your_main_channel" ∧
      cfg.backupChannel = (env "BACKUP_CHANNEL_USERNAME").getD "@your_backup_channel" ∧
      cfg.mainChannelName = (env "MAIN_CHANNEL_NAME").getD "Main Anime Channel" ∧
      cfg.backupChannelName = (env "BACKUP_CHANNEL_NAME").getD "Backup Anime Channel") := by
  by_cases h1 : envFalsy (env "TELEGRAM_BOT_TOKEN") = true
  · constructor
    · simp [load_config, isFatal, h1]
    · intro cfg hcfg
      simp [load_config, h1] at hcfg
  · by_cases h2 : envFalsy (env "PEXELS_API_KEY") = true
    · constructor
      · simp [load_config, isFatal, h1, h2]
      · intro cfg hcfg
        simp [load_config, h1, h2] at hcfg
    · constructor
      · simp [load_config, isFatal, h1, h2]
      · intro cfg hcfg
        simp only [load_config, h1, h2, Bool.false_eq_true, if_false,
          Except.ok.injEq] at hcfg
        subst hcfg
        exact ⟨rfl, rfl, rfl, rfl⟩

/-- Claim C9, witness: the empty environment is fatal at startup. -/
theorem startup_requirements_w :
    isFatal (load_config (fun _ => none)) = true :=
  (startup_requirements (fun _ => none)).1.mpr (Or.inl rfl)

/-- Claim C10: for every conversation id with no directory entry, the
lookup returns the string User, which differs from the salutation default
there; the lookup is a total pure function of the directory, so it cannot
raise and leaves the directory unchanged. -/
theorem get_user_name_missing (db : DB) (c : Int) (h : db c = none) :
    get_user_name db c = "User" ∧ get_user_name db c ≠ "there" := by
  have hu : get_user_name db c = "User" := by simp [get_user_name, h]
  exact ⟨hu, by rw [hu]; decide⟩

/-- Claim C10, witness: the lookup on the empty directory returns User. -/
theorem get_user_name_missing_w : get_user_name db0 5 = "User" :=
  (get_user_name_missing db0 5 rfl).1
